import Mathlib

/-!
Verification development for the "sf-sharing-button" browser extension
(content script, options page, background relay, translation table).

The JavaScript content script is shallowly embedded below:

* The regular expressions used by `isValidSfId`, `extractRecordId` and the
  classic-page gate of `tryInsert` are embedded via a small backtracking
  matcher (`matchToks`) over the exact token sequences of those regex
  literals, with JavaScript semantics: leftmost match position, greedy
  bounded quantifiers with backtracking, `$` matching only at the end of
  the input, and the character class `[a-zA-Z0-9]` (ASCII alphanumerics,
  which is exactly `Char.isAlphanum`).
* The browser state a function reads (URL, decoded fragment, first
  `data-recordid` attribute value, presence of the mount-point containers,
  marker-element presence) is passed explicitly as records; DOM side
  effects become explicit state transformers.
* `alert` and `chrome.runtime.sendMessage` become lists of emitted
  notifications/messages.
-/

/-! ## Regex engine (JavaScript semantics for the patterns used by the script) -/

/-- Tokens of the concrete regex literals appearing in the source.
`lit` is a literal character sequence; `notSlashPlus` is `[^/]+`;
`alnumRun lo hi cap` is `[a-zA-Z0-9]{lo,hi}` (with `cap = true` when the
run is the pattern's capture group); `optAlnum n` is `([a-zA-Z0-9]{n})?`;
`endAnchor` is `$`. -/
inductive Tok where
  | lit : List Char → Tok
  | notSlashPlus : Tok
  | alnumRun : Nat → Nat → Bool → Tok
  | optAlnum : Nat → Tok
  | endAnchor : Tok

/-- Greedy backtracking loop for a bounded character-class run: try to
consume `k+1` characters satisfying `p` (longest first), run the
continuation `next` on the remainder, and on failure retry with a shorter
run, failing below length `lo`.  Runs of length `0` never occur in the
source's patterns (every quantifier there has a positive lower bound). -/
def tryChars (p : Char → Bool) (next : List Char → Option (List Char)) (cap : Bool) (lo : Nat) (s : List Char) : Nat → Option (List Char)
  | 0 => none
  | k+1 =>
      if k+1 < lo then none
      else if k+1 ≤ s.length && (s.take (k+1)).all p then
        match next (s.drop (k+1)) with
        | some c => some (if cap then s.take (k+1) else c)
        | none => tryChars p next cap lo s k
      else tryChars p next cap lo s k

/-- Match a token sequence against the beginning of `s`, returning the
string captured by the capture group (`[]` when the pattern has no capture
group after the current position).  Greedy quantifiers backtrack exactly
as in JavaScript. -/
def matchToks (toks : List Tok) : List Char → Option (List Char) :=
  match toks with
  | [] => fun _ => some []
  | t :: rest =>
    let next := matchToks rest
    fun s =>
      match t with
      | .lit l => if l.isPrefixOf s then next (s.drop l.length) else none
      | .endAnchor => if s.isEmpty then next s else none
      | .notSlashPlus => tryChars (fun c => !(c == '/')) next false 1 s s.length
      | .alnumRun lo hi cap => tryChars Char.isAlphanum next cap lo s hi
      | .optAlnum n =>
        if n ≤ s.length && (s.take n).all Char.isAlphanum then
          match next (s.drop n) with
          | some c => some c
          | none => next s
        else next s

/-- Unanchored matching: like JavaScript `String.prototype.match` with a
non-global regex, try each start position from the left and return the
capture of the leftmost match. -/
def matchFrom (toks : List Tok) (s : List Char) : Option (List Char) :=
  match matchToks toks s with
  | some c => some c
  | none =>
    match s with
    | [] => none
    | _ :: t => matchFrom toks t

/-- `s.match(re)` restricted to the information the script uses: `some`
capture when the regex matches, `none` otherwise. -/
def jsMatch (toks : List Tok) (s : String) : Option String :=
  (matchFrom toks s.data).map (fun cs => String.mk cs)

/-- `re.test(s)` for the embedded unanchored patterns. -/
def jsTest (toks : List Tok) (s : String) : Bool :=
  (matchFrom toks s.data).isSome

/-! ## isValidSfId -/

/-- Token sequence of `/^[a-zA-Z0-9]{15}([a-zA-Z0-9]{3})?$/` (the `^`
anchor is embedded by matching only at position 0, i.e. by using
`matchToks` instead of `matchFrom`). -/
def sfIdToks : List Tok := [Tok.alnumRun 15 15 false, Tok.optAlnum 3, Tok.endAnchor]

/-- `isValidSfId(id)`: `/^[a-zA-Z0-9]{15}([a-zA-Z0-9]{3})?$/.test(id || "")`. -/
def isValidSfId (id : String) : Bool := (matchToks sfIdToks id.data).isSome

/-! ## extractRecordId -/

/-- The part of the page state `extractRecordId` reads:
`href` is `window.location.href`; `hash` is the decoded fragment
(`window.location.hash ? decodeURIComponent(window.location.hash) : ""`,
percent-decoding happening at the boundary of the embedding); and
`dataRecordId` is the `data-recordid` attribute value of the first element
bearing that attribute (`none` when no such element exists). -/
structure PageEnv where
  href : String
  hash : String
  dataRecordId : Option String

/-- `/\/lightning\/r\/[^/]+\/([a-zA-Z0-9]{15,18})\//` -/
def lightningObjectPat : List Tok :=
  [Tok.lit "/lightning/r/".data, Tok.notSlashPlus, Tok.lit "/".data, Tok.alnumRun 15 18 true, Tok.lit "/".data]

/-- `/\/lightning\/r\/([a-zA-Z0-9]{15,18})\//` -/
def lightningBarePat : List Tok :=
  [Tok.lit "/lightning/r/".data, Tok.alnumRun 15 18 true, Tok.lit "/".data]

/-- `/\/sObject\/([a-zA-Z0-9]{15,18})\//` -/
def sObjectPat : List Tok :=
  [Tok.lit "/sObject/".data, Tok.alnumRun 15 18 true, Tok.lit "/".data]

/-- `/\/r\/[^/]+\/([a-zA-Z0-9]{15,18})\//` -/
def consolePat : List Tok :=
  [Tok.lit "/r/".data, Tok.notSlashPlus, Tok.lit "/".data, Tok.alnumRun 15 18 true, Tok.lit "/".data]

/-- `/\/([a-zA-Z0-9]{15,18})$/` -/
def classicEndPat : List Tok :=
  [Tok.lit "/".data, Tok.alnumRun 15 18 true, Tok.endAnchor]

/-- `/\/([a-zA-Z0-9]{15,18})\//` -/
def classicSlashPat : List Tok :=
  [Tok.lit "/".data, Tok.alnumRun 15 18 true, Tok.lit "/".data]

/-- The `patterns` array of `extractRecordId`, in source order. -/
def extractPatterns : List (List Tok) :=
  [lightningObjectPat, lightningBarePat, sObjectPat, consolePat, classicEndPat, classicSlashPat]

/-- One loop iteration's second half: `m = hash.match(re); if (m &&
isValidSfId(m[1])) return m[1];` with `k` the continuation for the rest of
the loop. -/
def hashStep (env : PageEnv) (p : List Tok) (k : Option String) : Option String :=
  match jsMatch p env.hash with
  | some c => if isValidSfId c then some c else k
  | none => k

/-- The `for (const re of patterns)` loop of `extractRecordId`. -/
def extractLoop (env : PageEnv) : List (List Tok) → Option String
  | [] => none
  | p :: rest =>
      match jsMatch p env.href with
      | some c => if isValidSfId c then some c else hashStep env p (extractLoop env rest)
      | none => hashStep env p (extractLoop env rest)

/-- The `data-recordid` fallback at the end of `extractRecordId`. -/
def dataFallback (env : PageEnv) : Option String :=
  match env.dataRecordId with
  | some v => if isValidSfId v then some v else none
  | none => none

/-- `extractRecordId()`. -/
def extractRecordId (env : PageEnv) : Option String :=
  match extractLoop env extractPatterns with
  | some r => some r
  | none => dataFallback env

/-! ## Specification-shaped extractor (for the refinement claim about
pattern precedence) -/

/-- Modelled from the spec's words: the ordered candidate list "pattern 1
against URL, then pattern 1 against fragment, then pattern 2 against URL,
etc." — earlier-listed patterns take precedence over later ones regardless
of URL-vs-fragment source. -/
def candidateSources (env : PageEnv) : List (List Tok × String) :=
  extractPatterns.flatMap (fun p => [(p, env.href), (p, env.hash)])

/-- Modelled from the spec's words: a candidate yields a value when the
pattern matches the candidate's search string and the captured value
passes the identifier validity check. -/
def specValidCapture (pr : List Tok × String) : Option String :=
  match jsMatch pr.1 pr.2 with
  | some c => if isValidSfId c then some c else none
  | none => none

/-- Modelled from the spec's words: return the first candidate (in the
precedence order above) whose capture validates; only when no pattern
yields a valid capture, consult the `data-recordid` fallback, validating
the same way; return `none` when nothing validates. -/
def specExtract (env : PageEnv) : Option String :=
  match (candidateSources env).findSome? specValidCapture with
  | some r => some r
  | none => dataFallback env

/-! ## Translation table and language resolution -/

/-- The translation keys the content script requests (the table's
settings-page-only keys are never read by the embedded content-script
functions and are omitted from the embedding). -/
inductive TKey where
  | buttonText
  | buttonTitle
  | errorNoRecordId
deriving DecidableEq

/-- One language's entry of the `translations` table (content-script keys). -/
structure TransEntry where
  buttonText : String
  buttonTitle : String
  errorNoRecordId : String

/-- Field lookup `entry[key]`. -/
def TransEntry.get (e : TransEntry) : TKey → String
  | .buttonText => e.buttonText
  | .buttonTitle => e.buttonTitle
  | .errorNoRecordId => e.errorNoRecordId

/-- The raw key name, for the `|| key` fallback of `getTranslation`. -/
def TKey.name : TKey → String
  | .buttonText => "buttonText"
  | .buttonTitle => "buttonTitle"
  | .errorNoRecordId => "errorNoRecordId"

/-- `window.sfSharingTranslations` — the table of `translations.js`,
languages in source order; `none` for unsupported codes. -/
def sfSharingTranslations : String → Option TransEntry
  | "en" => some ⟨"Sharing", "Open Sharing Detail for this record", "Could not detect a Record Id on this page. Open a record detail page and try again."⟩
  | "es" => some ⟨"Compartir", "Abrir detalles de compartir para este registro", "No se pudo detectar un ID de registro en esta página. Abra una página de detalles de registro e inténtelo de nuevo."⟩
  | "fr" => some ⟨"Partage", "Ouvrir les détails de partage pour cet enregistrement", "Impossible de détecter un ID d\x27enregistrement sur cette page. Ouvrez une page de détails d\x27enregistrement et réessayez."⟩
  | "de" => some ⟨"Freigabe", "Freigabe-Details für diesen Datensatz öffnen", "Auf dieser Seite konnte keine Datensatz-ID erkannt werden. Öffnen Sie eine Datensatz-Detailseite und versuchen Sie es erneut."⟩
  | "it" => some ⟨"Condivisione", "Apri i dettagli di condivisione per questo record", "Impossibile rilevare un ID record in questa pagina. Apri una pagina di dettaglio record e riprova."⟩
  | "pt" => some ⟨"Compartilhamento", "Abrir detalhes de compartilhamento para este registro", "Não foi possível detectar um ID de registro nesta página. Abra uma página de detalhes do registro e tente novamente."⟩
  | "ja" => some ⟨"共有", "このレコードの共有詳細を開く", "このページでレコードIDを検出できませんでした。レコード詳細ページを開いて再試行してください。"⟩
  | "ko" => some ⟨"공유", "이 레코드의 공유 세부정보 열기", "이 페이지에서 레코드 ID를 감지할 수 없습니다. 레코드 세부정보 페이지를 열고 다시 시도하세요."⟩
  | "zh" => some ⟨"共享", "打开此记录的共享详细信息", "无法在此页面检测到记录ID。请打开记录详细信息页面并重试。"⟩
  | "ru" => some ⟨"Общий доступ", "Открыть детали общего доступа для этой записи", "Не удалось обнаружить ID записи на этой странице. Откройте страницу сведений о записи и попробуйте снова."⟩
  | "ar" => some ⟨"مشاركة", "فتح تفاصيل المشاركة لهذا السجل", "تعذر اكتشاف معرف السجل في هذه الصفحة. افتح صفحة تفاصيل السجل وحاول مرة أخرى."⟩
  | "hi" => some ⟨"शेयरिंग", "इस रिकॉर्ड के लिए शेयरिंग विवरण खोलें", "इस पेज पर रिकॉर्ड ID का पता नहीं लगाया जा सका। कृपया रिकॉर्ड विवरण पेज खोलें और पुनः प्रयास करें।"⟩
  | "nl" => some ⟨"Delen", "Deelgegevens voor dit record openen", "Kon geen record-ID detecteren op deze pagina. Open een recorddetailpagina en probeer het opnieuw."⟩
  | "sv" => some ⟨"Delning", "Öppna delningsdetaljer för denna post", "Kunde inte upptäcka ett post-ID på denna sida. Öppna en postdetaljsida och försök igen."⟩
  | "da" => some ⟨"Deling", "Åbn delingsdetaljer for denne post", "Kunne ikke registrere et post-ID på denne side. Åbn en postdetaljeside og prøv igen."⟩
  | "fi" => some ⟨"Jako", "Avaa tämän tietueen jakotiedot", "Tietueen ID:tä ei voitu tunnistaa tällä sivulla. Avaa tietueen yksityiskohtasivu ja yritä uudelleen."⟩
  | "pl" => some ⟨"Udostępnianie", "Otwórz szczegóły udostępniania dla tego rekordu", "Nie można wykryć ID rekordu na tej stronie. Otwórz stronę szczegółów rekordu i spróbuj ponownie."⟩
  | "tr" => some ⟨"Paylaşım", "Bu kayıt için paylaşım ayrıntılarını aç", "Bu sayfada kayıt ID\x27si tespit edilemedi. Bir kayıt ayrıntı sayfası açın ve tekrar deneyin."⟩
  | "he" => some ⟨"שיתוף", "פתח פרטי שיתוף עבור רשומה זו", "לא ניתן לזהות מזהה רשומה בדף זה. פתח דף פרטי רשומה ונסה שוב."⟩
  | _ => none

/-- `browserLang.split('-')[0].toLowerCase()`, after the
`navigator.language || navigator.userLanguage || 'en'` default
(`split('-')[0]` is the prefix before the first `'-'`; lowercasing is
per-character, which agrees with JavaScript on the ASCII language tags
involved). -/
def primaryLangCode (browserLang : String) : String :=
  let bl := if browserLang.data.isEmpty then "en" else browserLang
  String.mk ((bl.data.takeWhile (fun c => !(c == '-'))).map Char.toLower)

/-- `detectLanguage()`: browser-language detection with fallback to
`'en'` when the primary code has no translation entry. -/
def detectLanguage (browserLang : String) : String :=
  let langCode := primaryLangCode browserLang
  if (sfSharingTranslations langCode).isSome then langCode else "en"

/-- `getTranslation(key)`: resolves via `detectLanguage()` (the browser
language only), then `translations[lang]?.[key] || translations['en']?.[key] || key`. -/
def getTranslation (browserLang : String) (key : TKey) : String :=
  let lang := detectLanguage browserLang
  match sfSharingTranslations lang with
  | some e => e.get key
  | none =>
    match sfSharingTranslations "en" with
    | some e => e.get key
    | none => key.name

/-- The two-field settings blob stored by the options page. -/
structure Settings where
  languageMode : String
  selectedLanguage : String

/-- `getPreferredLanguage()`'s resolution (the storage callback's body):
a manual mode uses the stored selection, auto mode the browser language;
an unsupported code falls back to `'en'`. -/
def getPreferredLanguage (st : Settings) (browserLang : String) : String :=
  let langCode :=
    if st.languageMode == "manual" then st.selectedLanguage
    else primaryLangCode browserLang
  if (sfSharingTranslations langCode).isSome then langCode else "en"

/-- The display strings `buildButton()` assigns to the injected button:
`btn.title = getTranslation("buttonTitle")` and the label from
`getTranslation("buttonText")`.  Note the source resolves them through
`detectLanguage()` alone; the stored settings are never consulted here. -/
structure ButtonStrings where
  title : String
  text : String
deriving DecidableEq

/-- The strings `buildButton()` puts on the button, as a function of the
browser language (its only language input in the source). -/
def buildButtonStrings (browserLang : String) : ButtonStrings :=
  { title := getTranslation browserLang TKey.buttonTitle
    text := getTranslation browserLang TKey.buttonText }

/-! ## The click handler of the injected button -/

/-- A `chrome.runtime.sendMessage` payload `{ type, url }`. -/
structure SfMessage where
  type : String
  url : String
deriving DecidableEq

/-- The observable effects of one activation of the injected button:
`alert(...)` calls and `chrome.runtime.sendMessage(...)` calls, in order. -/
structure ClickEffects where
  alerts : List String
  messages : List SfMessage
deriving DecidableEq

/-- The click listener installed by `buildButton()` (the floating
button installs the identical listener): extract the record id; when
absent, `alert(getTranslation("errorNoRecordId"))` and return; otherwise
send `{ type: "openSharing", url }` with
`url = location.origin + "/p/share/CustomObjectSharingDetail?parentId=" + recordId`. -/
def handleSharingClick (env : PageEnv) (origin : String) (browserLang : String) : ClickEffects :=
  match extractRecordId env with
  | none => { alerts := [getTranslation browserLang TKey.errorNoRecordId], messages := [] }
  | some recordId =>
      { alerts := []
        messages := [{ type := "openSharing"
                       url := origin ++ "/p/share/CustomObjectSharingDetail?parentId=" ++ recordId }] }

/-! ## Insertion strategy (tryInsert and the three insertion operations)

The marker elements (`LI_ID`, `BTN_ID`, `BTN_FLOAT_ID`) and the two mount
points (`ul.slds-global-actions`, `div.linkElements`) are modelled by
presence booleans; `document.getElementById`, `deepQuerySelector` and
`document.querySelector` calls on those fixed selectors become reads of
those booleans.  Each insertion operation is a state transformer over the
marker booleans. -/

/-- Occurrence of `pat` as a contiguous subsequence, by scanning every
suffix. -/
def listContains (pat : List Char) : List Char → Bool
  | [] => pat.isEmpty
  | c :: t => pat.isPrefixOf (c :: t) || listContains pat t

/-- `String.prototype.includes`. -/
def strContains (s pat : String) : Bool := listContains pat.data s.data

/-- Marker-element presence: an element with id `LI_ID` / `BTN_ID` /
`BTN_FLOAT_ID` exists in the document. -/
structure Dom where
  hasLi : Bool
  hasBtn : Bool
  hasFloat : Bool
deriving DecidableEq

/-- The fixed page context `tryInsert` and the insertion operations read:
the extraction environment, `window.location.hostname`, and the presence
of the two mount-point containers. -/
structure SfEnv where
  page : PageEnv
  hostname : String
  hasGlobalActionsUl : Bool
  hasLinkElementsDiv : Bool

/-- `insertInGlobalActionsUl()`: if an element with id `LI_ID` or `BTN_ID`
exists, return `true`; else if `deepQuerySelector("ul.slds-global-actions")`
finds no container, return `false`; else insert the `<li>` (with the
button inside it) and return `true`. -/
def insertInGlobalActionsUl (env : SfEnv) (d : Dom) : Dom × Bool :=
  if d.hasLi || d.hasBtn then (d, true)
  else if env.hasGlobalActionsUl then ({ d with hasLi := true, hasBtn := true }, true)
  else (d, false)

/-- `insertInClassicPage()`: if an element with id `LI_ID` or `BTN_ID`
exists, return `true`; else if `document.querySelector("div.linkElements")`
finds no container, return `false`; else insert the button (id `BTN_ID`)
and return `true`. -/
def insertInClassicPage (env : SfEnv) (d : Dom) : Dom × Bool :=
  if d.hasLi || d.hasBtn then (d, true)
  else if env.hasLinkElementsDiv then ({ d with hasBtn := true }, true)
  else (d, false)

/-- `insertFloatingButton()`: if an element with id `BTN_ID` or
`BTN_FLOAT_ID` exists, return; else append the floating button to the
body. -/
def insertFloatingButton (d : Dom) : Dom :=
  if d.hasBtn || d.hasFloat then d else { d with hasFloat := true }

/-- `/\/[a-zA-Z0-9]{15,18}$/.test(url) || /\/[a-zA-Z0-9]{15,18}\//.test(url)`,
the classic record-page gate of `tryInsert` (the two regexes are the
capture-free forms of the last two extraction patterns). -/
def isClassicRecordUrl (url : String) : Bool :=
  jsTest [Tok.lit "/".data, Tok.alnumRun 15 18 false, Tok.endAnchor] url ||
  jsTest [Tok.lit "/".data, Tok.alnumRun 15 18 false, Tok.lit "/".data] url

/-- The deferred work `tryInsert` may schedule with `setTimeout(..., 1500)`. -/
inductive Pending where
  | noRetry
  | classicRetry
  | lightningRetry
deriving DecidableEq

/-- The synchronous part of `tryInsert()`: the two page-relevance gates,
the classic-page record-id requirement, and the first docked insertion
attempt; returns the scheduled retry (if any). -/
def tryInsertSync (env : SfEnv) (d : Dom) : Dom × Pending :=
  if strContains env.hostname "lightning.force.com" && !(strContains env.page.href "/lightning/r/") then
    (d, Pending.noRetry)
  else if strContains env.hostname "my.salesforce.com" && !(isClassicRecordUrl env.page.href) then
    (d, Pending.noRetry)
  else if strContains env.hostname "my.salesforce.com" then
    match extractRecordId env.page with
    | none => (d, Pending.noRetry)
    | some _ =>
        let r := insertInClassicPage env d
        if r.2 then (r.1, Pending.noRetry) else (r.1, Pending.classicRetry)
  else
    let r := insertInGlobalActionsUl env d
    if r.2 then (r.1, Pending.noRetry) else (r.1, Pending.lightningRetry)

/-- A scheduled `setTimeout` callback of `tryInsert()`: retry the docked
insertion and fall back to the floating button when it fails again. -/
def runPending (env : SfEnv) (d : Dom) : Pending → Dom
  | Pending.noRetry => d
  | Pending.classicRetry =>
      let r := insertInClassicPage env d
      if r.2 then r.1 else insertFloatingButton r.1
  | Pending.lightningRetry =>
      let r := insertInGlobalActionsUl env d
      if r.2 then r.1 else insertFloatingButton r.1

/-- One complete `tryInsert()` execution — the synchronous part followed by
its deferred callback (if one was scheduled) running against an unchanged
page context. -/
def tryInsertFull (env : SfEnv) (d : Dom) : Dom :=
  let r := tryInsertSync env d
  runPending env r.1 r.2

/-- The ungated Lightning-style insertion attempt (the `else` branch of
`tryInsert`): `insertInGlobalActionsUl`, else schedule the deferred retry. -/
def lightningPathSync (env : SfEnv) (d : Dom) : Dom × Pending :=
  let r := insertInGlobalActionsUl env d
  if r.2 then (r.1, Pending.noRetry) else (r.1, Pending.lightningRetry)

/-- Number of logical injected elements present: the docked variant (the
`<li>`/button markers) and the floating variant count one each. -/
def injCount (d : Dom) : Nat :=
  (if d.hasLi || d.hasBtn then 1 else 0) + (if d.hasFloat then 1 else 0)

/-- `tryInsert` reaches an insertion attempt (no gate returned early):
both relevance gates pass and, on a classic host, a record id is
extractable. -/
def insertionProceeds (env : SfEnv) : Bool :=
  !(strContains env.hostname "lightning.force.com" && !(strContains env.page.href "/lightning/r/")) &&
  (!(strContains env.hostname "my.salesforce.com") ||
    (isClassicRecordUrl env.page.href && (extractRecordId env.page).isSome))

/-- Two `tryInsert()` calls in immediate succession: both synchronous
parts run first, then the two deferred callbacks in scheduling order,
all against the unchanged page context `env`, starting from a document
with no injected element. -/
def twoTryInserts (env : SfEnv) : Dom :=
  let c1 := tryInsertSync env ⟨false, false, false⟩
  let c2 := tryInsertSync env c1.1
  let d3 := runPending env c2.1 c1.2
  runPending env d3 c2.2

/-! ## Shadow-DOM model and deepQuerySelector

The DOM tree is a `Forest`: `nil` is an empty sibling list and
`cons label hasShadow shadowOpen shadowContent children rest` is an
element (with `label` standing for its identity) followed by its later
siblings; `hasShadow`/`shadowOpen` encode the element's shadow root and
its mode (`el.shadowRoot` is `null` both when no shadow root is attached
and when it is closed, so `shadowContent` is reachable only when both are
true).  A selector is abstracted to a syntactic-validity flag plus the
predicate it denotes on elements; `querySelector` throws exactly when the
selector is malformed, which the embedding models with `Except`. -/

inductive Forest where
  | nil : Forest
  | cons (label : Nat) (hasShadow : Bool) (shadowOpen : Bool)
      (shadowContent : Forest) (children : Forest) (rest : Forest) : Forest

/-- A CSS selector, abstracted: `malformed` selectors make
`querySelector` throw; otherwise the selector denotes the element
predicate `pred`. -/
structure Sel where
  malformed : Bool
  pred : Nat → Bool

/-- Preorder (document-order) first match among the elements of a light
tree — `querySelector`'s search, which never pierces shadow roots. -/
def qsForest (p : Nat → Bool) : Forest → Option Nat
  | Forest.nil => none
  | Forest.cons l _ _ _ ch rest =>
      if p l then some l
      else
        match qsForest p ch with
        | some x => some x
        | none => qsForest p rest

/-- `root.querySelector(selector)`: throws on a malformed selector, else
returns the first light-tree match. -/
def queryRes (sel : Sel) (f : Forest) : Except Unit (Option Nat) :=
  if sel.malformed then Except.error () else Except.ok (qsForest sel.pred f)

/-- The body of the walker loop for one element: skip unless
`el.shadowRoot` is truthy (an open, attached shadow root), then
`try { el.shadowRoot.querySelector(selector) } catch (e) {}` — a throw or
a miss both yield nothing. -/
def shadowHit (sel : Sel) (hasShadow shadowOpen : Bool) (content : Forest) : Option Nat :=
  if hasShadow && shadowOpen then
    match queryRes sel content with
    | Except.ok (some x) => some x
    | _ => none
  else none

/-- The `createTreeWalker` loop of `deepQuerySelector`: every element
under the root in document order (the walker does not descend into shadow
roots), returning the first shadow-root hit. -/
def scanHosts (sel : Sel) : Forest → Option Nat
  | Forest.nil => none
  | Forest.cons _ hs so sc ch rest =>
      match shadowHit sel hs so sc with
      | some x => some x
      | none =>
        match scanHosts sel ch with
        | some x => some x
        | none => scanHosts sel rest

/-- `deepQuerySelector(selector, root)`: the guarded direct query, then
the walker loop, then `null`. -/
def deepQuerySelector (sel : Sel) (root : Forest) : Option Nat :=
  match queryRes sel root with
  | Except.ok (some x) => some x
  | _ => scanHosts sel root

/-! ### Specification-shaped deep locators -/

/-- Modelled from the spec's words: traverse every element under the
root and, for each element exposing an attached shadow tree, run the same
selector against that shadow tree's root *recursively* (direct query on
the shadow tree first, then its own traversal), returning the first match
in depth-first order. -/
def specScan (sel : Sel) : Forest → Option Nat
  | Forest.nil => none
  | Forest.cons _ hs so sc ch rest =>
      match
        (if hs && so then
          match queryRes sel sc with
          | Except.ok (some x) => some x
          | _ => specScan sel sc
        else none) with
      | some x => some x
      | none =>
        match specScan sel ch with
        | some x => some x
        | none => specScan sel rest

/-- Modelled from the spec's words: the fully recursive deep locator —
direct query on the root, else the recursive shadow traversal. -/
def specDeep (sel : Sel) (root : Forest) : Option Nat :=
  match queryRes sel root with
  | Except.ok (some x) => some x
  | _ => specScan sel root

/-- The shadow slots of every element under the root, in document order. -/
def hostShadows : Forest → List (Bool × Bool × Forest)
  | Forest.nil => []
  | Forest.cons _ hs so sc ch rest => (hs, so, sc) :: (hostShadows ch ++ hostShadows rest)

/-- One-level deep locator, stated independently of the walker recursion:
the direct light-tree query, else the first one-level shadow hit over the
document-ordered host list. -/
def oneLevelDeepFind (sel : Sel) (root : Forest) : Option Nat :=
  match queryRes sel root with
  | Except.ok (some x) => some x
  | _ => (hostShadows root).findSome? (fun h => shadowHit sel h.1 h.2.1 h.2.2)

/-- Blank out every part of the tree that no `querySelector`/walker read
can reach: the content of closed (and unattached) shadow slots, at every
depth. -/
def eraseClosed : Forest → Forest
  | Forest.nil => Forest.nil
  | Forest.cons l hs so sc ch rest =>
      Forest.cons l hs so (if hs && so then eraseClosed sc else Forest.nil)
        (eraseClosed ch) (eraseClosed rest)

theorem tryChars_lt (p : Char → Bool) (next : List Char → Option (List Char)) (cap : Bool) (lo : Nat) (s : List Char) :
    ∀ k, k < lo → tryChars p next cap lo s k = none := by
  intro k hk
  cases k with
  | zero => rfl
  | succ m => simp [tryChars, hk]

theorem tryChars_exact (p : Char → Bool) (next : List Char → Option (List Char)) (cap : Bool) (n : Nat) (s : List Char) (hn : 1 ≤ n) :
    tryChars p next cap n s n =
      if n ≤ s.length && (s.take n).all p then
        match next (s.drop n) with
        | some c => some (if cap then s.take n else c)
        | none => none
      else none := by
  obtain ⟨m, rfl⟩ : ∃ m, n = m + 1 := ⟨n - 1, by omega⟩
  have hlt : tryChars p next cap (m + 1) s m = none :=
    tryChars_lt p next cap (m + 1) s m (by omega)
  simp only [tryChars, Nat.lt_irrefl, if_false, hlt]

theorem next1_eval (t : List Char) :
    matchToks [Tok.optAlnum 3, Tok.endAnchor] t =
      if t.isEmpty then some []
      else if t.length = 3 && t.all Char.isAlphanum then some []
      else none := by
  by_cases hE : t = []
  · subst hE; rfl
  · have hEb : t.isEmpty = false := by simp [List.isEmpty_iff, hE]
    simp only [matchToks, hEb, Bool.false_eq_true, if_false]
    by_cases hlen : t.length = 3
    · have htake : t.take 3 = t := List.take_of_length_le (by omega)
      have hdrop : t.drop 3 = [] := List.drop_eq_nil_iff.mpr (by omega)
      have h3 : (3:Nat) ≤ t.length := by omega
      simp only [htake, hdrop, h3, hlen, List.isEmpty_nil, decide_eq_true_eq, if_true]
      cases hall : t.all Char.isAlphanum <;> simp [hall, h3, hlen]
    · have hC2 : (decide (t.length = 3) && t.all Char.isAlphanum) = false := by
        simp [hlen]
      rw [hC2]
      simp only [Bool.false_eq_true, if_false]
      by_cases h3 : (3:Nat) ≤ t.length
      · have hD : (t.drop 3).isEmpty = false := by
          refine Bool.eq_false_iff.mpr (fun hc => ?_)
          rw [List.isEmpty_iff, List.drop_eq_nil_iff] at hc
          omega
        rw [hD]
        simp only [Bool.false_eq_true, if_false]
        split <;> rfl
      · have : (decide (3 ≤ t.length) && (t.take 3).all Char.isAlphanum) = false := by
          simp [h3]
        rw [this]
        simp

theorem matchToks_sfId (cs : List Char) :
    matchToks sfIdToks cs =
      tryChars Char.isAlphanum (matchToks [Tok.optAlnum 3, Tok.endAnchor]) false 15 cs 15 := rfl

theorem isValidSfId_iff (s : String) :
    isValidSfId s = true ↔
      (s.data.length = 15 ∨ s.data.length = 18) ∧ s.data.all Char.isAlphanum = true := by
  unfold isValidSfId
  rw [matchToks_sfId, tryChars_exact _ _ _ 15 _ (by omega), next1_eval]
  generalize hcs : s.data = cs
  by_cases h15 : (15:Nat) ≤ cs.length
  · by_cases htk : (cs.take 15).all Char.isAlphanum = true
    · rw [if_pos (by simp [h15, htk])]
      by_cases hl15 : cs.length = 15
      · have hdropnil : cs.drop 15 = [] := List.drop_eq_nil_iff.mpr (by omega)
        have htakeall : cs.take 15 = cs := List.take_of_length_le (by omega)
        rw [hdropnil]
        simp only [List.isEmpty_nil, if_true]
        simp [hl15, htakeall ▸ htk]
      · have hemp : (cs.drop 15).isEmpty = false := by
          refine Bool.eq_false_iff.mpr (fun hc => ?_)
          rw [List.isEmpty_iff, List.drop_eq_nil_iff] at hc
          omega
        rw [hemp]
        simp only [Bool.false_eq_true, if_false]
        by_cases h18 : cs.length = 18
        · have hd3 : (cs.drop 15).length = 3 := by rw [List.length_drop]; omega
          by_cases hda : (cs.drop 15).all Char.isAlphanum = true
          · rw [if_pos (by simp [hd3, hda])]
            have hall : cs.all Char.isAlphanum = true := by
              rw [← List.take_append_drop 15 cs, List.all_append]
              simp [htk, hda]
            simp [h18, hall]
          · rw [if_neg (by simp [hda])]
            have hnall : cs.all Char.isAlphanum = false := by
              rw [← List.take_append_drop 15 cs, List.all_append]
              simp [Bool.eq_false_iff.mpr hda]
            simp [hl15, h18, hnall]
        · rw [if_neg (by rw [List.length_drop]; simp; omega)]
          simp [hl15, h18]
    · rw [if_neg (by simp [Bool.eq_false_iff.mpr htk])]
      have hnall : cs.all Char.isAlphanum = false := by
        rw [← List.take_append_drop 15 cs, List.all_append]
        simp [Bool.eq_false_iff.mpr htk]
      simp [hnall]
  · rw [if_neg (by simp [h15])]
    simp
    omega

/-- Claim C2: every string of exactly 15 or exactly 18 alphanumeric
characters passes `isValidSfId`; every string of length 14, 16, 17 or 19
fails it, and so does every string containing a non-alphanumeric
character. -/
theorem isValidSfId_accepts_15_18_rejects_rest (s : String) :
    ((s.length = 15 ∨ s.length = 18) → (∀ c ∈ s.data, c.isAlphanum = true) → isValidSfId s = true)
  ∧ ((s.length = 14 ∨ s.length = 16 ∨ s.length = 17 ∨ s.length = 19) → isValidSfId s = false)
  ∧ ((∃ c ∈ s.data, c.isAlphanum = false) → isValidSfId s = false) := by
  have hlen : s.length = s.data.length := rfl
  have hiff := isValidSfId_iff s
  refine ⟨?_, ?_, ?_⟩
  · intro h1 h2
    rw [hlen] at h1
    exact hiff.mpr ⟨h1, List.all_eq_true.mpr h2⟩
  · intro h1
    rw [hlen] at h1
    cases hv : isValidSfId s with
    | false => rfl
    | true => have := (hiff.mp hv).1; omega
  · rintro ⟨c, hc, hcf⟩
    cases hv : isValidSfId s with
    | false => rfl
    | true =>
        have := List.all_eq_true.mp (hiff.mp hv).2 c hc
        rw [hcf] at this
        cases this

/-- Witness for C2 at concrete inputs: a 15-character alphanumeric id is
accepted, a 14-character one rejected, and a 15-character string with a
non-alphanumeric character rejected. -/
theorem isValidSfId_accepts_15_18_rejects_rest_witness :
    isValidSfId "a0p5w000005tyFK" = true ∧
    isValidSfId "a0p5w000005tyF" = false ∧
    isValidSfId "a0p5w000005tyF!" = false :=
  ⟨(isValidSfId_accepts_15_18_rejects_rest "a0p5w000005tyFK").1 (by decide) (by decide),
   (isValidSfId_accepts_15_18_rejects_rest "a0p5w000005tyF").2.1 (by decide),
   (isValidSfId_accepts_15_18_rejects_rest "a0p5w000005tyF!").2.2 ⟨'!', by decide, by decide⟩⟩

/-- Claim C3, counterexample: the identifier written in the claim,
`001XXXXXXXXXXXXXX`, has 17 characters, so on the claim's URL every
pattern's capture fails the validity check and `extractRecordId` returns
`none` — not that identifier. -/
theorem extractRecordId_claim_url_returns_none :
    extractRecordId
      { href := "https://x.lightning.force.com/lightning/r/Account/001XXXXXXXXXXXXXX/view"
        hash := "", dataRecordId := none } = none ∧
    ("001XXXXXXXXXXXXXX" : String).length = 17 := by decide

/-- Claim C3 as amended: with an identifier of a valid length (18
characters here), `extractRecordId` on the Lightning record URL returns
exactly that identifier. -/
theorem extractRecordId_lightning_record_url :
    extractRecordId
      { href := "https://x.lightning.force.com/lightning/r/Account/001XXXXXXXXXXXXXXX/view"
        hash := "", dataRecordId := none } = some "001XXXXXXXXXXXXXXX" := by decide

/-- The pattern loop of `extractRecordId` equals the first-valid-candidate
search over the flattened, precedence-ordered candidate list. -/
theorem extractLoop_eq_findSome (env : PageEnv) :
    ∀ ps : List (List Tok),
      extractLoop env ps =
        (ps.flatMap fun p => [(p, env.href), (p, env.hash)]).findSome? specValidCapture := by
  intro ps
  induction ps with
  | nil => rfl
  | cons p rest ih =>
    simp only [extractLoop, hashStep, List.flatMap_cons, List.cons_append, List.nil_append,
      List.findSome?_cons, specValidCapture, ih]
    cases h1 : jsMatch p env.href <;> cases h2 : jsMatch p env.hash <;> simp [h1, h2] <;>
      (try split <;> simp) <;> (try split <;> simp)

/-- Claim C4: `extractRecordId` returns the valid capture of the
earliest-listed pattern (URL tried before the decoded fragment within
each pattern, earlier patterns beating later ones across both sources),
consults the `data-recordid` fallback only when no pattern yields a valid
capture, and returns `none` when nothing validates — i.e. it coincides
with the specification-shaped extractor. -/
theorem extractRecordId_eq_specExtract (env : PageEnv) :
    extractRecordId env = specExtract env := by
  unfold extractRecordId specExtract candidateSources
  rw [extractLoop_eq_findSome]

/-- Claim C5: activating the injected button with no extractable
identifier raises exactly one error notification and sends no message;
with an extractable identifier it raises no notification and sends exactly
one `openSharing` message whose URL is the origin-based sharing URL for
that identifier. -/
theorem click_one_alert_or_one_message (env : PageEnv) (origin browserLang : String) :
    (extractRecordId env = none →
      (handleSharingClick env origin browserLang).alerts.length = 1 ∧
      (handleSharingClick env origin browserLang).messages = [])
  ∧ (∀ id, extractRecordId env = some id →
      (handleSharingClick env origin browserLang).alerts = [] ∧
      (handleSharingClick env origin browserLang).messages =
        [{ type := "openSharing"
           url := origin ++ "/p/share/CustomObjectSharingDetail?parentId=" ++ id }]) := by
  constructor
  · intro h
    simp [handleSharingClick, h]
  · intro id h
    simp [handleSharingClick, h]

/-- Witness for C5: a page with no identifier yields one alert and no
message; a classic record URL yields the exact sharing message. -/
theorem click_one_alert_or_one_message_witness :
    (handleSharingClick ⟨"https://a.b/c", "", none⟩ "https://a.b" "en").alerts.length = 1 ∧
    (handleSharingClick ⟨"https://a.b/c", "", none⟩ "https://a.b" "en").messages = [] ∧
    (handleSharingClick ⟨"https://x.my.salesforce.com/a0p5w000005tyFK", "", none⟩
        "https://x.my.salesforce.com" "en").messages =
      [{ type := "openSharing"
         url := "https://x.my.salesforce.com/p/share/CustomObjectSharingDetail?parentId=a0p5w000005tyFK" }] :=
  ⟨((click_one_alert_or_one_message ⟨"https://a.b/c", "", none⟩ "https://a.b" "en").1 (by decide)).1,
   ((click_one_alert_or_one_message ⟨"https://a.b/c", "", none⟩ "https://a.b" "en").1 (by decide)).2,
   (((click_one_alert_or_one_message ⟨"https://x.my.salesforce.com/a0p5w000005tyFK", "", none⟩
        "https://x.my.salesforce.com" "en").2 "a0p5w000005tyFK" (by decide)).2).trans (by decide)⟩

/-- Claim C9, code behaviour at the failing input: with browser language
`en` and stored settings `{languageMode: "manual", selectedLanguage: "fr"}`,
the preferred-language resolution yields `fr` (whose label is `Partage`),
yet `buildButton` resolves its strings through `getTranslation` /
`detectLanguage` — the browser language alone — and labels the button with
the English strings; the fallback half of the claim (an unsupported code
resolves to the default language) does hold. -/
theorem buildButton_ignores_manual_language :
    buildButtonStrings "en" = ⟨"Open Sharing Detail for this record", "Sharing"⟩ ∧
    getPreferredLanguage ⟨"manual", "fr"⟩ "en" = "fr" ∧
    ((sfSharingTranslations "fr").map fun e => e.buttonText) = some "Partage" ∧
    ("Sharing" : String) ≠ "Partage" ∧
    detectLanguage "xx-YY" = "en" ∧
    getPreferredLanguage ⟨"manual", "xx"⟩ "en" = "en" := by decide

/-- Claim C1, counterexample: from a document with no injected element
(and the global-actions container present), the insertion sequence
`insertFloatingButton; insertInGlobalActionsUl` ends with the docked
markers and the floating marker present simultaneously — two logical
injected elements — because the docked insertion checks only the docked
markers. -/
theorem insertion_sequence_creates_both_variants :
    (insertInGlobalActionsUl
        { page := ⟨"", "", none⟩, hostname := "", hasGlobalActionsUl := true, hasLinkElementsDiv := false }
        (insertFloatingButton ⟨false, false, false⟩)).1.hasLi = true ∧
    (insertInGlobalActionsUl
        { page := ⟨"", "", none⟩, hostname := "", hasGlobalActionsUl := true, hasLinkElementsDiv := false }
        (insertFloatingButton ⟨false, false, false⟩)).1.hasFloat = true ∧
    injCount
      (insertInGlobalActionsUl
        { page := ⟨"", "", none⟩, hostname := "", hasGlobalActionsUl := true, hasLinkElementsDiv := false }
        (insertFloatingButton ⟨false, false, false⟩)).1 = 2 := by decide

/-- Claim C1 as amended: only the floating insertion checks both the
docked button marker and the floating marker (and so never creates a
second element); the docked insertion checks only the docked markers, so
running it while the floating variant exists (and the container is
present) yields both variants — two logical injected elements — at once. -/
theorem floating_insert_checks_both_markers (env : SfEnv) (d : Dom) :
    ((d.hasBtn || d.hasFloat) = true → insertFloatingButton d = d)
  ∧ (d.hasLi = false → d.hasBtn = false → d.hasFloat = true →
      env.hasGlobalActionsUl = true →
      injCount (insertInGlobalActionsUl env d).1 = 2) := by
  obtain ⟨li, btn, fl⟩ := d
  refine ⟨fun h => ?_, fun h1 h2 h3 h4 => ?_⟩
  · simp only [insertFloatingButton]
    simp_all
  · simp only at h1 h2 h3
    subst h1; subst h2; subst h3
    simp [insertInGlobalActionsUl, injCount, h4]

/-- Witness for the amended C1: the floating insertion is a no-op when the
docked button exists, and the docked insertion run while only the floating
element exists leaves two injected elements. -/
theorem floating_insert_checks_both_markers_witness :
    insertFloatingButton ⟨false, true, false⟩ = ⟨false, true, false⟩ ∧
    injCount
      (insertInGlobalActionsUl
        { page := ⟨"", "", none⟩, hostname := "", hasGlobalActionsUl := true, hasLinkElementsDiv := false }
        ⟨false, false, true⟩).1 = 2 :=
  ⟨(floating_insert_checks_both_markers
      { page := ⟨"", "", none⟩, hostname := "", hasGlobalActionsUl := true, hasLinkElementsDiv := false }
      ⟨false, true, false⟩).1 (by decide),
   (floating_insert_checks_both_markers
      { page := ⟨"", "", none⟩, hostname := "", hasGlobalActionsUl := true, hasLinkElementsDiv := false }
      ⟨false, false, true⟩).2 rfl rfl rfl rfl⟩

/-- Claim C10: when the hostname contains neither `lightning.force.com`
nor `my.salesforce.com`, `tryInsert` applies no page-relevance gating —
for every URL and every extraction outcome it is exactly the
Lightning-style insertion path (docked attempt, deferred retry, floating
fallback). -/
theorem tryInsert_ungated_on_other_hosts (env : SfEnv) (d : Dom)
    (h1 : strContains env.hostname "lightning.force.com" = false)
    (h2 : strContains env.hostname "my.salesforce.com" = false) :
    tryInsertSync env d = lightningPathSync env d ∧
    tryInsertFull env d =
      runPending env (lightningPathSync env d).1 (lightningPathSync env d).2 := by
  have hs : tryInsertSync env d = lightningPathSync env d := by
    unfold tryInsertSync lightningPathSync
    simp [h1, h2]
  exact ⟨hs, by unfold tryInsertFull; rw [hs]⟩

/-- Witness for C10 on a host matching neither Salesforce domain. -/
theorem tryInsert_ungated_on_other_hosts_witness :
    tryInsertSync
        { page := ⟨"https://a.b/c", "", none⟩, hostname := "example.com",
          hasGlobalActionsUl := false, hasLinkElementsDiv := false } ⟨false, false, false⟩ =
      lightningPathSync
        { page := ⟨"https://a.b/c", "", none⟩, hostname := "example.com",
          hasGlobalActionsUl := false, hasLinkElementsDiv := false } ⟨false, false, false⟩ :=
  (tryInsert_ungated_on_other_hosts
    { page := ⟨"https://a.b/c", "", none⟩, hostname := "example.com",
      hasGlobalActionsUl := false, hasLinkElementsDiv := false } ⟨false, false, false⟩
    (by decide) (by decide)).1

/-- Claim C6: insertion is idempotent — a complete second `tryInsert`
execution changes nothing; each individual insertion operation applied
twice leaves the state of its first application; a docked insertion with
a docked marker already present returns `true` immediately without
creating anything; and two successive `tryInsert` calls from a document
with no injected element leave at most one injected element — exactly one
whenever the page-relevance gates let an insertion attempt proceed. -/
theorem tryInsert_idempotent_single_element (env : SfEnv) (d : Dom) :
    tryInsertFull env (tryInsertFull env d) = tryInsertFull env d
  ∧ (insertInGlobalActionsUl env (insertInGlobalActionsUl env d).1).1 = (insertInGlobalActionsUl env d).1
  ∧ (insertInClassicPage env (insertInClassicPage env d).1).1 = (insertInClassicPage env d).1
  ∧ insertFloatingButton (insertFloatingButton d) = insertFloatingButton d
  ∧ ((d.hasLi || d.hasBtn) = true → insertInGlobalActionsUl env d = (d, true))
  ∧ injCount (twoTryInserts env) ≤ 1
  ∧ (insertionProceeds env = true → injCount (twoTryInserts env) = 1) := by
  obtain ⟨li, btn, fl⟩ := d
  refine ⟨?_, ?_, ?_, ?_, ?_, ?_, ?_⟩
  · cases hG1 : (strContains env.hostname "lightning.force.com" && !(strContains env.page.href "/lightning/r/")) <;>
    cases hM : strContains env.hostname "my.salesforce.com" <;>
    cases hC : isClassicRecordUrl env.page.href <;>
    cases hR : extractRecordId env.page <;>
    cases hU : env.hasGlobalActionsUl <;>
    cases hL : env.hasLinkElementsDiv <;>
    cases li <;> cases btn <;> cases fl <;>
    simp [tryInsertFull, tryInsertSync, runPending, insertInGlobalActionsUl,
      insertInClassicPage, insertFloatingButton, hG1, hM, hC, hR, hU, hL]
  · cases li <;> cases btn <;> cases hU : env.hasGlobalActionsUl <;>
      simp [insertInGlobalActionsUl, hU]
  · cases li <;> cases btn <;> cases hL : env.hasLinkElementsDiv <;>
      simp [insertInClassicPage, hL]
  · cases btn <;> cases fl <;> simp [insertFloatingButton]
  · intro h
    simp only [insertInGlobalActionsUl, h, if_true]
  · cases hG1 : (strContains env.hostname "lightning.force.com" && !(strContains env.page.href "/lightning/r/")) <;>
    cases hM : strContains env.hostname "my.salesforce.com" <;>
    cases hC : isClassicRecordUrl env.page.href <;>
    cases hR : extractRecordId env.page <;>
    cases hU : env.hasGlobalActionsUl <;>
    cases hL : env.hasLinkElementsDiv <;>
    simp [twoTryInserts, tryInsertSync, runPending, insertInGlobalActionsUl,
      insertInClassicPage, insertFloatingButton, injCount, hG1, hM, hC, hR, hU, hL]
  · cases hG1 : (strContains env.hostname "lightning.force.com" && !(strContains env.page.href "/lightning/r/")) <;>
    cases hM : strContains env.hostname "my.salesforce.com" <;>
    cases hC : isClassicRecordUrl env.page.href <;>
    cases hR : extractRecordId env.page <;>
    cases hU : env.hasGlobalActionsUl <;>
    cases hL : env.hasLinkElementsDiv <;>
    simp [twoTryInserts, tryInsertSync, runPending, insertInGlobalActionsUl,
      insertInClassicPage, insertFloatingButton, injCount, insertionProceeds, hG1, hM, hC, hR, hU, hL]

/-- Witness for C6 on a Lightning record page whose global-actions
container is present: the already-present rule and the single-element
outcome hold at concrete inputs. -/
theorem tryInsert_idempotent_single_element_witness :
    insertInGlobalActionsUl
        { page := ⟨"https://x.lightning.force.com/lightning/r/Account/001XXXXXXXXXXXXXXX/view", "", none⟩,
          hostname := "x.lightning.force.com", hasGlobalActionsUl := true, hasLinkElementsDiv := false }
        ⟨true, true, false⟩ = (⟨true, true, false⟩, true) ∧
    injCount
      (twoTryInserts
        { page := ⟨"https://x.lightning.force.com/lightning/r/Account/001XXXXXXXXXXXXXXX/view", "", none⟩,
          hostname := "x.lightning.force.com", hasGlobalActionsUl := true, hasLinkElementsDiv := false }) = 1 :=
  ⟨(tryInsert_idempotent_single_element
      { page := ⟨"https://x.lightning.force.com/lightning/r/Account/001XXXXXXXXXXXXXXX/view", "", none⟩,
        hostname := "x.lightning.force.com", hasGlobalActionsUl := true, hasLinkElementsDiv := false }
      ⟨true, true, false⟩).2.2.2.2.1 (by decide),
   (tryInsert_idempotent_single_element
      { page := ⟨"https://x.lightning.force.com/lightning/r/Account/001XXXXXXXXXXXXXXX/view", "", none⟩,
        hostname := "x.lightning.force.com", hasGlobalActionsUl := true, hasLinkElementsDiv := false }
      ⟨false, false, false⟩).2.2.2.2.2.2 (by decide)⟩

/-- The walker loop equals the first-hit search over the materialized
document-ordered host list. -/
theorem scanHosts_eq_findSome (sel : Sel) :
    ∀ f : Forest,
      scanHosts sel f = (hostShadows f).findSome? (fun h => shadowHit sel h.1 h.2.1 h.2.2) := by
  intro f
  induction f with
  | nil => rfl
  | cons l hs so sc ch rest ihsc ihch ihrest =>
    simp only [scanHosts, hostShadows, List.findSome?_cons, List.findSome?_append, ihch, ihrest]
    cases shadowHit sel hs so sc <;> cases (hostShadows ch).findSome? (fun h => shadowHit sel h.1 h.2.1 h.2.2) <;>
      simp [Option.or]

/-- Claim C7 as amended: `deepQuerySelector` is the direct light-tree
query followed by a single level of shadow search — the first open-shadow
hit over the hosts in document order (it does not recurse into shadow
trees nested inside other shadow trees). -/
theorem deepQuerySelector_one_level (sel : Sel) (root : Forest) :
    deepQuerySelector sel root = oneLevelDeepFind sel root := by
  unfold deepQuerySelector oneLevelDeepFind
  cases queryRes sel root with
  | error e => simp [scanHosts_eq_findSome]
  | ok v => cases v <;> simp [scanHosts_eq_findSome]

/-- Claim C7, counterexample: a match sitting inside a shadow tree that is
nested within another shadow tree is found by the recursive locator the
claim describes, but `deepQuerySelector` misses it and returns `none`. -/
theorem deepQuerySelector_misses_nested_shadow :
    deepQuerySelector ⟨false, fun l => l == 2⟩
      (Forest.cons 0 true true
        (Forest.cons 1 true true (Forest.cons 2 false false Forest.nil Forest.nil Forest.nil)
          Forest.nil Forest.nil)
        Forest.nil Forest.nil) = none ∧
    specDeep ⟨false, fun l => l == 2⟩
      (Forest.cons 0 true true
        (Forest.cons 1 true true (Forest.cons 2 false false Forest.nil Forest.nil Forest.nil)
          Forest.nil Forest.nil)
        Forest.nil Forest.nil) = some 2 := by decide

/-- The light-tree query never reads shadow content, so blanking
unreachable shadow content does not change it. -/
theorem qsForest_eraseClosed (p : Nat → Bool) :
    ∀ f : Forest, qsForest p (eraseClosed f) = qsForest p f := by
  intro f
  induction f with
  | nil => rfl
  | cons l hs so sc ch rest ihsc ihch ihrest =>
    simp only [eraseClosed, qsForest, ihch, ihrest]

/-- The walker loop reads shadow content only through open, attached
shadow roots, so blanking the unreachable content does not change it. -/
theorem scanHosts_eraseClosed (sel : Sel) :
    ∀ f : Forest, scanHosts sel (eraseClosed f) = scanHosts sel f := by
  intro f
  induction f with
  | nil => rfl
  | cons l hs so sc ch rest ihsc ihch ihrest =>
    have hhit : shadowHit sel hs so (if hs && so then eraseClosed sc else Forest.nil) =
        shadowHit sel hs so sc := by
      cases hso : (hs && so) with
      | true => simp [shadowHit, hso, queryRes, qsForest_eraseClosed]
      | false => simp [shadowHit, hso]
    simp only [eraseClosed, scanHosts, hhit, ihch, ihrest]

/-- With a malformed selector every query throws, every throw is caught,
and the walker finds nothing. -/
theorem scanHosts_malformed (sel : Sel) (hm : sel.malformed = true) :
    ∀ f : Forest, scanHosts sel f = none := by
  intro f
  induction f with
  | nil => rfl
  | cons l hs so sc ch rest ihsc ihch ihrest =>
    have hhit : shadowHit sel hs so sc = none := by
      cases hso : (hs && so) with
      | true => simp [shadowHit, hso, queryRes, hm]
      | false => simp [shadowHit, hso]
    simp only [scanHosts, hhit, ihch, ihrest]

/-- Claim C8: `deepQuerySelector` is total by construction (every
`querySelector` throw is caught at its boundary); with a malformed
selector it returns `none` rather than propagating the failure, and its
result never depends on the content of shadow trees that refuse
inspection (closed or unattached slots). -/
theorem deepQuerySelector_total_suppresses_failures (sel : Sel) (root : Forest) :
    (sel.malformed = true → deepQuerySelector sel root = none)
  ∧ deepQuerySelector sel (eraseClosed root) = deepQuerySelector sel root := by
  constructor
  · intro hm
    unfold deepQuerySelector queryRes
    simp [hm, scanHosts_malformed sel hm]
  · unfold deepQuerySelector queryRes
    by_cases hm : sel.malformed
    · simp [hm, scanHosts_eraseClosed]
    · simp [hm, qsForest_eraseClosed, scanHosts_eraseClosed]

/-- Witness for C8: a malformed selector yields `none` on a concrete
tree, applying the theorem with its hypothesis discharged. -/
theorem deepQuerySelector_total_suppresses_failures_witness :
    deepQuerySelector ⟨true, fun _ => true⟩
      (Forest.cons 7 true false (Forest.cons 8 false false Forest.nil Forest.nil Forest.nil)
        Forest.nil Forest.nil) = none :=
  (deepQuerySelector_total_suppresses_failures ⟨true, fun _ => true⟩
    (Forest.cons 7 true false (Forest.cons 8 false false Forest.nil Forest.nil Forest.nil)
      Forest.nil Forest.nil)).1 rfl
